import Mathlib

/-!
# Verification of the luminance pipeline core (`src/luminance/src/pipeline.rs`)

Shallow embedding of the dynamic-rendering-pipeline core of luminance-rs.
Effectful backend calls are modelled in writer style: every operation that,
in Rust, performs backend side effects is embedded as a pure function
returning the list of backend calls it issues (a `Trace` of `Event`s).

The source file only *declares* the backend capability trait `HasPipeline`;
the bodies of `run_pipeline` / `run_shading_command` live in backend crates
that are not part of the sources here.  Those two operations are therefore
modelled from the specification (§4.1) and clearly marked as such; the rest
of the definitions are direct translations of the Rust source.
-/

namespace Luminance

/-- Stand-in for Rust `f32`.  The pipeline core never computes with
floating-point values: clear colors and rasterization sizes are only stored
at construction and forwarded verbatim to the backend, so we model an `f32`
as its opaque bit pattern. -/
abbrev F32 := Nat

/-- The `[f32; 4]` clear color of a pipeline. -/
abbrev ClearColor := F32 × F32 × F32 × F32

/-- `blending::Equation` — opaque to this core (the blending value set is an
external collaborator; the core only forwards it, never interprets it). -/
abbrev Equation := Nat

/-- `blending::Factor` — opaque to this core, forwarded uninterpreted. -/
abbrev Factor := Nat

/-- A borrowed `Framebuffer` render target, opaque to this core; identified
by the identity of the borrowed resource. -/
structure Framebuffer where
  id : Nat
deriving DecidableEq, Repr

/-- A borrowed `Tessellation` geometry resource, opaque to this core. -/
structure Tessellation where
  id : Nat
deriving DecidableEq, Repr

/-- A borrowed `Program<C, T>`: a shader program whose uniform interface has
payload type `T`.  The backend hands `uniforms` (the `&T`) to the update
callbacks when executing a shading command. -/
structure Program (T : Type) where
  id : Nat
  uniforms : T

/-- A `Box<Fn(&T)>` update callback.  The closure body is external user
code; observationally it has an identity `id` (the boxed closure object) and
a pure effect `app`, the list of opaque uniform writes it performs when
invoked on a payload `&T`. -/
structure Callback (T : Type) where
  id : Nat
  app : T → List Nat

/-- One backend call, as recorded in an execution trace. -/
inductive Event where
  /-- The backend binds/activates the pipeline's render target. -/
  | bindTarget (fb : Nat)
  /-- The backend clears the bound target with the given clear color. -/
  | clear (color : ClearColor)
  /-- The backend binds a shader program. -/
  | bindProgram (prog : Nat)
  /-- An update callback `cb` is invoked; `writes` are the uniform writes it
  performs on the program's uniform-interface payload. -/
  | call (cb : Nat) (writes : List Nat)
  /-- The backend configures blend state: disabled for `none`, else exactly
  the forwarded `(equation, source, destination)` triple. -/
  | configureBlend (b : Option (Equation × Factor × Factor))
  /-- The backend sets the depth-test flag. -/
  | setDepthTest (flag : Bool)
  /-- The backend issues an instanced draw of a tessellation. -/
  | draw (tess : Nat) (instances : Nat) (rasterizationSize : Option F32)
deriving DecidableEq, Repr

/-- The sequence of backend calls issued by one effectful operation. -/
abbrev Trace := List Event

/-- `RenderCommand<C, T>`: pure data describing one instanced draw.
`instances` is a Rust `u32`; the core performs no arithmetic on it, so any
`u32` value embeds directly as a natural number. -/
structure RenderCommand (T : Type) where
  blending : Option (Equation × Factor × Factor)
  depth_test : Bool
  update : Callback T
  tessellation : Tessellation
  instances : Nat
  rasterization_size : Option F32

/-- `ShadingCommand<C, T>`: a shader program, a one-shot update
callback, and an ordered sequence of render commands. -/
structure ShadingCommand (T : Type) where
  program : Program T
  update : Callback T
  render_commands : List (RenderCommand T)

/-- The trait object `&SomeShadingCommand`: a type-erased handle exposing
the single capability "run me".  Its vtable entry is fixed when the handle
is created; in writer style that dispatch is the trace the erased
`run_shading_command` produces. -/
structure SomeShadingCommand where
  run_shading_command : Trace
deriving DecidableEq, Repr

/-- `Pipeline<C, L, D, CS, DS>`.  The layering / dimension / slot type
parameters only constrain the borrowed framebuffer and are never inspected
by the core, so they do not reappear in the model. -/
structure Pipeline where
  framebuffer : Framebuffer
  clear_color : ClearColor
  shading_commands : List SomeShadingCommand

/-- The backend capability trait `HasPipeline`: the two entry points the
core calls back into.  In Rust the backend is the type parameter `C`; here
it is passed as a value. -/
structure HasPipeline where
  run_pipeline : Pipeline → Trace
  run_shading_command : (T : Type) → ShadingCommand T → Trace

/-- `Pipeline::new`: plain field assignment, no validation. -/
def Pipeline.new (framebuffer : Framebuffer) (clear_color : ClearColor)
    (shading_commands : List SomeShadingCommand) : Pipeline :=
  { framebuffer := framebuffer
    clear_color := clear_color
    shading_commands := shading_commands }

/-- `Pipeline::run`: `C::run_pipeline(self)`. -/
def Pipeline.run (C : HasPipeline) (p : Pipeline) : Trace :=
  C.run_pipeline p

/-- `impl SomeShadingCommand for ShadingCommand<C, T>`: the erased
handle whose `run_shading_command` is `C::run_shading_command(self)` at the
concrete payload type `T` of this instance. -/
def ShadingCommand.erase {T : Type} (C : HasPipeline) (cmd : ShadingCommand T) :
    SomeShadingCommand :=
  { run_shading_command := C.run_shading_command T cmd }

/-- `ShadingCommand::new`: plain field assignment (the Rust side boxes the
closure; `Callback` already models the boxed closure). -/
def ShadingCommand.new {T : Type} (program : Program T) (update : Callback T)
    (render_commands : List (RenderCommand T)) : ShadingCommand T :=
  { program := program
    update := update
    render_commands := render_commands }

/-- `RenderCommand::new`: plain field assignment, no validation. -/
def RenderCommand.new {T : Type} (blending : Option (Equation × Factor × Factor))
    (depth_test : Bool) (update : Callback T) (tessellation : Tessellation)
    (instances : Nat) (rasterization_size : Option F32) : RenderCommand T :=
  { blending := blending
    depth_test := depth_test
    update := update
    tessellation := tessellation
    instances := instances
    rasterization_size := rasterization_size }

/-- Modelled from the spec: the body of a backend's execution of one render
command is absent from the sources (only the `HasPipeline` trait is there).
Per §4.1: configure blend state per the entry's `blending` field (disable if
`None`; else set equation/source/destination), set the depth-test flag,
invoke the entry's update callback exactly once with the program's
uniform-interface handle, then issue a draw of the referenced tessellation
with the given instance count, applying the rasterization-size override if
present. -/
def run_render_command {T : Type} (uniforms : T) (r : RenderCommand T) : Trace :=
  [ Event.configureBlend r.blending
  , Event.setDepthTest r.depth_test
  , Event.call r.update.id (r.update.app uniforms)
  , Event.draw r.tessellation.id r.instances r.rasterization_size ]

/-- Modelled from the spec: the body of `HasPipeline::run_shading_command`
is absent from the sources.  Per §4.1: bind the referenced program, invoke
the command's update callback exactly once with the program's
uniform-interface handle, then execute every entry of `render_commands` in
sequence order. -/
def run_shading_command_impl {T : Type} (cmd : ShadingCommand T) : Trace :=
  Event.bindProgram cmd.program.id ::
  Event.call cmd.update.id (cmd.update.app cmd.program.uniforms) ::
  List.flatten (cmd.render_commands.map (run_render_command cmd.program.uniforms))

/-- Modelled from the spec: the body of `HasPipeline::run_pipeline` is
absent from the sources.  Per §4.1: bind/activate the pipeline's render
target, clear it using `clear_color`, then execute every entry of
`shading_commands` in sequence order by invoking each entry's type-erased
run operation, with no reordering, skipping, or deduplication. -/
def run_pipeline_impl (p : Pipeline) : Trace :=
  Event.bindTarget p.framebuffer.id ::
  Event.clear p.clear_color ::
  List.flatten (p.shading_commands.map (fun s => s.run_shading_command))

/-- The reference backend: a `HasPipeline` instance whose two entry points
are the spec-modelled bodies, recording a call trace. -/
def specBackend : HasPipeline :=
  { run_pipeline := run_pipeline_impl
    run_shading_command := fun _ cmd => run_shading_command_impl cmd }

/-- Is this event a clear of the render target? -/
def Event.isClear : Event → Bool
  | Event.clear _ => true
  | _ => false

/-- Is this event an invocation of an update callback? -/
def Event.isCall : Event → Bool
  | Event.call _ _ => true
  | _ => false

/-- Is this event an instanced draw? -/
def Event.isDraw : Event → Bool
  | Event.draw _ _ _ => true
  | _ => false

/-- Number of clear calls in a trace. -/
def clearCount (t : Trace) : Nat := (t.filter Event.isClear).length

/-- Number of update-callback invocations in a trace. -/
def callCount (t : Trace) : Nat := (t.filter Event.isCall).length

/-- Number of draw calls in a trace. -/
def drawCount (t : Trace) : Nat := (t.filter Event.isDraw).length

/-- The blend-state configurations a trace makes the backend observe, in
order. -/
def blendEvents (t : Trace) : List (Option (Equation × Factor × Factor)) :=
  t.filterMap fun e =>
    match e with
    | Event.configureBlend b => some b
    | _ => none

/-- Two consecutive `run()` calls on the same pipeline: the first call takes
the pipeline by shared reference, so the identical value is available for
the second call. -/
def runTwice (C : HasPipeline) (p : Pipeline) : Trace :=
  p.run C ++ p.run C

/-- `n` consecutive `run()` calls on the same pipeline value, none of which
reconstructs or alters it. -/
def runN (C : HasPipeline) (p : Pipeline) : Nat → Trace
  | 0 => []
  | n + 1 => p.run C ++ runN C p n

theorem clearCount_append (a b : Trace) :
    clearCount (a ++ b) = clearCount a + clearCount b := by
  simp [clearCount, List.filter_append]

theorem drawCount_append (a b : Trace) :
    drawCount (a ++ b) = drawCount a + drawCount b := by
  simp [drawCount, List.filter_append]

theorem callCount_append (a b : Trace) :
    callCount (a ++ b) = callCount a + callCount b := by
  simp [callCount, List.filter_append]

theorem clearCount_flatten_zero {l : List Trace}
    (h : ∀ t ∈ l, clearCount t = 0) : clearCount l.flatten = 0 := by
  induction l with
  | nil => rfl
  | cons a l ih =>
    rw [List.flatten_cons, clearCount_append, h a (List.mem_cons_self a l),
      ih fun t ht => h t (List.mem_cons_of_mem a ht)]

theorem callCount_flatten_ones {l : List Trace}
    (h : ∀ t ∈ l, callCount t = 1) : callCount l.flatten = l.length := by
  induction l with
  | nil => rfl
  | cons a l ih =>
    rw [List.flatten_cons, callCount_append, h a (List.mem_cons_self a l),
      ih fun t ht => h t (List.mem_cons_of_mem a ht), List.length_cons,
      Nat.add_comm]

theorem callCount_run_render_command {T : Type} (u : T) (r : RenderCommand T) :
    callCount (run_render_command u r) = 1 := rfl

/-- Under the reference backend, a pipeline whose erased handles issue no
clear of their own clears exactly once per run. -/
theorem clearCount_run_spec (p : Pipeline)
    (h : ∀ s ∈ p.shading_commands, clearCount s.run_shading_command = 0) :
    clearCount (p.run specBackend) = 1 := by
  show clearCount (Event.bindTarget p.framebuffer.id ::
    Event.clear p.clear_color ::
    (p.shading_commands.map fun s => s.run_shading_command).flatten) = 1
  have h0 : clearCount
      (p.shading_commands.map fun s => s.run_shading_command).flatten = 0 := by
    refine clearCount_flatten_zero fun t ht => ?_
    obtain ⟨s, hs, rfl⟩ := List.mem_map.mp ht
    exact h s hs
  simp [clearCount, List.filter, Event.isClear] at h0 ⊢
  exact h0

/-- A concrete render command with `instances = 0`; used to instantiate
theorems that carry hypotheses. -/
def sampleRenderCommand : RenderCommand Unit :=
  RenderCommand.new none true ⟨7, fun _ => [1, 2]⟩ ⟨3⟩ 0 none

/-- A concrete shading command over the unit payload type. -/
def sampleShadingCommand : ShadingCommand Unit :=
  ShadingCommand.new ⟨1, ()⟩ ⟨2, fun _ => []⟩ [sampleRenderCommand]

/-- The sample shading command, type-erased against the reference backend. -/
def sampleHandle : SomeShadingCommand :=
  ShadingCommand.erase specBackend sampleShadingCommand

/-- A concrete pipeline holding the same erased handle twice (duplicates are
allowed by the data model). -/
def samplePipeline : Pipeline :=
  Pipeline.new ⟨0⟩ (0, 0, 0, 1) [sampleHandle, sampleHandle]

/-- Claim C1: for a Pipeline constructed with shading-command sequence
S1..Sn, `run()` under the reference backend invokes the backend clear
exactly once, strictly before any Si is dispatched (the only clear sits in
the two-event prefix that precedes every dispatched event), and then
dispatches S1..Sn as exactly the concatenation of their type-erased run
traces in constructed sequence order, with no reordering, skipping, or
deduplication. -/
theorem run_pipeline_clears_once_then_runs_commands_in_order (p : Pipeline)
    (h : ∀ s ∈ p.shading_commands, clearCount s.run_shading_command = 0) :
    p.run specBackend =
      [Event.bindTarget p.framebuffer.id, Event.clear p.clear_color] ++
        (p.shading_commands.map fun s => s.run_shading_command).flatten ∧
    clearCount (p.run specBackend) = 1 :=
  ⟨rfl, clearCount_run_spec p h⟩

theorem run_pipeline_clears_once_then_runs_commands_in_order_witness :
    (∀ s ∈ samplePipeline.shading_commands,
        clearCount s.run_shading_command = 0) ∧
    (samplePipeline.run specBackend =
      [Event.bindTarget samplePipeline.framebuffer.id,
        Event.clear samplePipeline.clear_color] ++
        (samplePipeline.shading_commands.map
          fun s => s.run_shading_command).flatten ∧
    clearCount (samplePipeline.run specBackend) = 1) :=
  ⟨by decide,
    run_pipeline_clears_once_then_runs_commands_in_order samplePipeline
      (by decide)⟩

/-- Claim C2: one execution of a shading command invokes its update callback
exactly once, before any of its render commands run (the single
shading-level call strictly precedes the concatenated render segments), and
invokes each render command's update callback exactly once, before that
command's draw is issued (inside each four-event segment the call strictly
precedes the draw); in total 1 + k callback invocations occur for k render
commands. -/
theorem shading_and_render_updates_invoked_once_in_order
    {T : Type} (cmd : ShadingCommand T) :
    run_shading_command_impl cmd =
      Event.bindProgram cmd.program.id ::
        Event.call cmd.update.id (cmd.update.app cmd.program.uniforms) ::
        (cmd.render_commands.map (run_render_command cmd.program.uniforms)).flatten ∧
    callCount (run_shading_command_impl cmd) =
      1 + cmd.render_commands.length ∧
    ∀ r ∈ cmd.render_commands,
      run_render_command cmd.program.uniforms r =
        [Event.configureBlend r.blending, Event.setDepthTest r.depth_test,
          Event.call r.update.id (r.update.app cmd.program.uniforms),
          Event.draw r.tessellation.id r.instances r.rasterization_size] := by
  refine ⟨rfl, ?_, fun r _ => rfl⟩
  have h1 : callCount ((cmd.render_commands.map
      (run_render_command cmd.program.uniforms)).flatten) =
      cmd.render_commands.length := by
    rw [callCount_flatten_ones, List.length_map]
    intro t ht
    obtain ⟨r, hr, rfl⟩ := List.mem_map.mp ht
    exact callCount_run_render_command _ r
  show callCount (Event.bindProgram cmd.program.id ::
    Event.call cmd.update.id (cmd.update.app cmd.program.uniforms) ::
    (cmd.render_commands.map (run_render_command cmd.program.uniforms)).flatten)
    = 1 + cmd.render_commands.length
  simp [callCount, List.filter, Event.isCall] at h1 ⊢
  omega

/-- Claim C3: the type-erased run operation of an erased shading-command
handle resolves, at the concrete payload type `T` the instance was
constructed with, to exactly one call into the backend capability trait
`run_shading_command` with that instance as argument. -/
theorem erased_run_resolves_to_backend_run_shading_command
    {T : Type} (C : HasPipeline) (cmd : ShadingCommand T) :
    (ShadingCommand.erase C cmd).run_shading_command =
      C.run_shading_command T cmd := rfl

/-- Claim C4: `Pipeline::run` delegates to the backend capability trait
`run_pipeline` with the pipeline itself as argument; its whole effect is
exactly that single delegation, for every backend and every pipeline. -/
theorem pipeline_run_delegates_to_backend (C : HasPipeline) (p : Pipeline) :
    p.run C = C.run_pipeline p := rfl

/-- Claim C5: every constructor of the core is total — for all argument
values it returns the record holding exactly those arguments and never
fails; in particular `RenderCommand::new` performs no validation beyond
type constraints and accepts `instances = 0`. -/
theorem constructors_total_store_fields {T : Type}
    (b : Option (Equation × Factor × Factor)) (d : Bool) (f : Callback T)
    (tess : Tessellation) (i : Nat) (rs : Option F32)
    (prog : Program T) (g : Callback T) (rcs : List (RenderCommand T))
    (fb : Framebuffer) (cc : ClearColor) (scs : List SomeShadingCommand) :
    RenderCommand.new b d f tess i rs =
      { blending := b, depth_test := d, update := f, tessellation := tess,
        instances := i, rasterization_size := rs } ∧
    (RenderCommand.new b d f tess 0 rs).instances = 0 ∧
    ShadingCommand.new prog g rcs =
      { program := prog, update := g, render_commands := rcs } ∧
    Pipeline.new fb cc scs =
      { framebuffer := fb, clear_color := cc, shading_commands := scs } :=
  ⟨rfl, rfl, rfl, rfl⟩

/-- Claim C6: during one render command's execution the backend observes
exactly one blend-state configuration, and it is exactly the command's
`blending` field forwarded uninterpreted: `none` makes the backend observe
blending disabled, `some (eq, src, dst)` makes it observe exactly that
triple. -/
theorem blending_forwarded_uninterpreted {T : Type} (u : T)
    (r : RenderCommand T) :
    blendEvents (run_render_command u r) = [r.blending] := rfl

/-- Claim C7: a render command with `instances = 0` still configures blend
state and the depth-test flag, still invokes its update callback exactly
once, and still issues its draw — carrying instance count 0; the command is
never skipped. -/
theorem zero_instances_command_not_skipped {T : Type} (u : T)
    (r : RenderCommand T) (h : r.instances = 0) :
    run_render_command u r =
      [Event.configureBlend r.blending, Event.setDepthTest r.depth_test,
        Event.call r.update.id (r.update.app u),
        Event.draw r.tessellation.id 0 r.rasterization_size] ∧
    callCount (run_render_command u r) = 1 ∧
    drawCount (run_render_command u r) = 1 := by
  rw [← h]
  exact ⟨rfl, rfl, rfl⟩

theorem zero_instances_command_not_skipped_witness :
    sampleRenderCommand.instances = 0 ∧
    (run_render_command () sampleRenderCommand =
      [Event.configureBlend sampleRenderCommand.blending,
        Event.setDepthTest sampleRenderCommand.depth_test,
        Event.call sampleRenderCommand.update.id
          (sampleRenderCommand.update.app ()),
        Event.draw sampleRenderCommand.tessellation.id 0
          sampleRenderCommand.rasterization_size] ∧
    callCount (run_render_command () sampleRenderCommand) = 1 ∧
    drawCount (run_render_command () sampleRenderCommand) = 1) :=
  ⟨rfl, zero_instances_command_not_skipped () sampleRenderCommand rfl⟩

/-- Claim C8: two consecutive `run()` calls on the same pipeline produce two
structurally identical backend traces — the double run is exactly the same
trace appended to itself — and re-running re-executes everything from
scratch: the double run clears twice and draws twice as much, never an
incremental or diff execution. -/
theorem run_twice_structurally_identical (p : Pipeline)
    (h : ∀ s ∈ p.shading_commands, clearCount s.run_shading_command = 0) :
    runTwice specBackend p = p.run specBackend ++ p.run specBackend ∧
    clearCount (runTwice specBackend p) = 2 ∧
    drawCount (runTwice specBackend p) = 2 * drawCount (p.run specBackend) := by
  refine ⟨rfl, ?_, ?_⟩
  · show clearCount (p.run specBackend ++ p.run specBackend) = 2
    rw [clearCount_append, clearCount_run_spec p h]
  · show drawCount (p.run specBackend ++ p.run specBackend) = _
    rw [drawCount_append]
    omega

theorem run_twice_structurally_identical_witness :
    (∀ s ∈ samplePipeline.shading_commands,
        clearCount s.run_shading_command = 0) ∧
    (runTwice specBackend samplePipeline =
      samplePipeline.run specBackend ++ samplePipeline.run specBackend ∧
    clearCount (runTwice specBackend samplePipeline) = 2 ∧
    drawCount (runTwice specBackend samplePipeline) =
      2 * drawCount (samplePipeline.run specBackend)) :=
  ⟨by decide, run_twice_structurally_identical samplePipeline (by decide)⟩

/-- Claim C9: `Pipeline::new` stores its three arguments exactly — the
target, the clear color, and the shading-command sequence with its
insertion order, length and duplicates preserved; no validation or
deduplication takes place. -/
theorem pipeline_new_stores_arguments_exactly (fb : Framebuffer)
    (cc : ClearColor) (scs : List SomeShadingCommand) :
    (Pipeline.new fb cc scs).framebuffer = fb ∧
    (Pipeline.new fb cc scs).clear_color = cc ∧
    (Pipeline.new fb cc scs).shading_commands = scs ∧
    (Pipeline.new fb cc scs).shading_commands.length = scs.length :=
  ⟨rfl, rfl, rfl, rfl⟩

/-- Claim C10: `Pipeline::run` consumes the pipeline by shared reference and
leaves it intact, so the very same pipeline value can be run any number of
times without reconstruction: `n` consecutive calls on one value produce
exactly `n` copies of the single-run trace. -/
theorem run_is_shared_and_repeatable (C : HasPipeline) (p : Pipeline)
    (n : Nat) :
    runN C p n = (List.replicate n (p.run C)).flatten := by
  induction n with
  | zero => rfl
  | succ n ih =>
    show p.run C ++ runN C p n = _
    rw [List.replicate_succ, List.flatten_cons, ih]

end Luminance
